import Mathlib

/-!
Shallow embedding of the bbblq/namecard typesetting engine
(src/src/App.tsx) together with the font/preset HTTP server
(src/unnamed/part_000, the Express server/index.js).

Numbers are modelled as exact rationals (the source only manipulates
small decimal JS numbers in the fragments under study); text is a list
of characters so that trimming and per-character tests can be stated
directly.
-/

namespace Namecard

/-! ## Physical constants (spec section 3; App.tsx print CSS literals) -/

/-- Target paper width in millimetres (the print CSS writes 297mm). -/
def PAGE_WIDTH_MM : ℚ := 297

/-- Target paper height in millimetres (the print CSS writes 420mm). -/
def PAGE_HEIGHT_MM : ℚ := 420

/-- Native unscaled width of the face-pair content in millimetres; the
App.tsx CSS comment cites 357mm as the card width. -/
def NATIVE_CONTENT_WIDTH_MM : ℚ := 357

/-! ## Data model -/

/-- The four text fields of a card (keys of CardData in App.tsx). -/
inductive Field
  | chineseName
  | englishName
  | chineseCompany
  | englishCompany
deriving DecidableEq

/-- One value per card field, mirroring the four-key React state objects
(fontSize, offsets, fontFamilies, letterSpacings) in App.tsx. -/
structure FieldMap (α : Type) where
  chineseName : α
  englishName : α
  chineseCompany : α
  englishCompany : α
deriving DecidableEq

/-- Look up the entry of a FieldMap for a given field. -/
def FieldMap.get {α : Type} (m : FieldMap α) : Field → α
  | Field.chineseName => m.chineseName
  | Field.englishName => m.englishName
  | Field.chineseCompany => m.chineseCompany
  | Field.englishCompany => m.englishCompany

/-- CardData (App.tsx lines 23-29); the four texts as character lists. -/
structure CardData where
  id : String
  chineseName : List Char
  englishName : List Char
  chineseCompany : List Char
  englishCompany : List Char
deriving DecidableEq

/-- The active layout configuration: the React state of App.tsx
(lines 184-230) that the render reads. The field printRotate is the
source's name for the spec's rotateForPrint flag. -/
structure Config where
  fontSize : FieldMap ℚ
  offsets : FieldMap ℚ
  fontFamilies : FieldMap String
  letterSpacings : FieldMap ℚ
  enableTwoCharWidening : Bool
  globalSpacing : ℚ
  printRotate : Bool
  previewScale : ℚ
  showCropMarks : Bool
  showFoldLine : Bool
  cropOffset : ℚ × ℚ
deriving DecidableEq

/-- The initial React state of App.tsx (useState defaults,
lines 184-230). -/
def initialConfig : Config :=
  { fontSize := { chineseName := 120, englishName := 90,
                  chineseCompany := 48, englishCompany := 36 }
  , offsets := { chineseName := 0, englishName := 0,
                 chineseCompany := 0, englishCompany := 0 }
  , fontFamilies := { chineseName := "TableCardCN", englishName := "TableCardEN",
                      chineseCompany := "TableCardCN", englishCompany := "TableCardEN" }
  , letterSpacings := { chineseName := 1/10, englishName := 1/20,
                        chineseCompany := 0, englishCompany := 0 }
  , enableTwoCharWidening := true
  , globalSpacing := 21
  , printRotate := true
  , previewScale := 3/4
  , showCropMarks := true
  , showFoldLine := false
  , cropOffset := (0, 0) }

/-! ## JavaScript string helpers used by the engine -/

/-- JavaScript WhiteSpace or LineTerminator, the character class removed
by String.prototype.trim. -/
def isJsWhitespace (c : Char) : Bool :=
  let n := c.toNat
  (9 ≤ n && n ≤ 13) || n = 0x20 || n = 0xA0 || n = 0x1680 ||
  (0x2000 ≤ n && n ≤ 0x200A) || n = 0x2028 || n = 0x2029 ||
  n = 0x202F || n = 0x205F || n = 0x3000 || n = 0xFEFF

/-- JavaScript String.prototype.trim on a character list. -/
def jsTrim (s : List Char) : List Char :=
  ((s.dropWhile isJsWhitespace).reverse.dropWhile isJsWhitespace).reverse

/-- Character class of the App.tsx widening regex: the literal range
u4E00-u9FA5 written in the source. -/
def inCodeCjkRange (c : Char) : Bool :=
  0x4E00 ≤ c.toNat && c.toNat ≤ 0x9FA5

/-- The App.tsx test (lines 1177 and 1183): the regex, anchored at both
ends, matches the trimmed text exactly when it is two characters long
and both characters lie in the range u4E00-u9FA5. -/
def twoCharCjkMatch (s : List Char) : Bool :=
  match jsTrim s with
  | [a, b] => inCodeCjkRange a && inCodeCjkRange b
  | _ => false

/-- Modelled from the spec's words for the refinement check of the
widening rule: a character of the Unicode block CJK Unified Ideographs,
U+4E00 through U+9FFF. -/
def inCjkUnifiedRange (c : Char) : Bool :=
  0x4E00 ≤ c.toNat && c.toNat ≤ 0x9FFF

/-- Modelled from the spec's words: the trimmed text consists of exactly
two ideographs of the CJK Unified block. -/
def twoCjkUnifiedPair (s : List Char) : Bool :=
  match jsTrim s with
  | [a, b] => inCjkUnifiedRange a && inCjkUnifiedRange b
  | _ => false

/-! ## TypographyResolver: effective tracking of the chineseName field -/

/-- Effective letter spacing of the chineseName field in em
(App.tsx lines 1177-1179): when widening is enabled and the trimmed
name matches the two-character regex, tracking becomes 1 + 2t,
otherwise it stays t. -/
def chineseNameTracking (widening : Bool) (t : ℚ) (name : List Char) : ℚ :=
  if widening && twoCharCjkMatch name then 1 + 2 * t else t

/-! ## Field rendering (the four styled divs, App.tsx lines 1174-1216) -/

/-- The inline style computed for one field's div. -/
structure FieldRender where
  fontSizePt : ℚ
  fontFamily : String
  letterSpacingEm : ℚ
  translateYPt : ℚ
  marginRightEm : ℚ
  text : List Char
deriving DecidableEq

/-- The style block of each of the four field divs, transcribed from
App.tsx lines 1174-1216. The chineseName branch repeats the widening
ternary in letterSpacing and in marginRight just as the source does. -/
def renderFieldStyle (cfg : Config) (card : CardData) : Field → FieldRender
  | Field.chineseName =>
    { fontSizePt := cfg.fontSize.chineseName
    , fontFamily := cfg.fontFamilies.chineseName
    , letterSpacingEm :=
        if cfg.enableTwoCharWidening && twoCharCjkMatch card.chineseName
        then 1 + 2 * cfg.letterSpacings.chineseName
        else cfg.letterSpacings.chineseName
    , translateYPt := cfg.offsets.chineseName + 25
    , marginRightEm :=
        -(if cfg.enableTwoCharWidening && twoCharCjkMatch card.chineseName
          then 1 + 2 * cfg.letterSpacings.chineseName
          else cfg.letterSpacings.chineseName)
    , text := card.chineseName }
  | Field.englishName =>
    { fontSizePt := cfg.fontSize.englishName
    , fontFamily := cfg.fontFamilies.englishName
    , letterSpacingEm := cfg.letterSpacings.englishName
    , translateYPt := cfg.offsets.englishName + 12
    , marginRightEm := -(cfg.letterSpacings.englishName)
    , text := card.englishName }
  | Field.chineseCompany =>
    { fontSizePt := cfg.fontSize.chineseCompany
    , fontFamily := cfg.fontFamilies.chineseCompany
    , letterSpacingEm := cfg.letterSpacings.chineseCompany
    , translateYPt := cfg.offsets.chineseCompany - 5
    , marginRightEm := -(cfg.letterSpacings.chineseCompany)
    , text := card.chineseCompany }
  | Field.englishCompany =>
    { fontSizePt := cfg.fontSize.englishCompany
    , fontFamily := cfg.fontFamilies.englishCompany
    , letterSpacingEm := cfg.letterSpacings.englishCompany
    , translateYPt := cfg.offsets.englishCompany - 10
    , marginRightEm := -(cfg.letterSpacings.englishCompany)
    , text := card.englishCompany }

/-- Modelled from the spec's words: the fixed per-field baseline anchors
in points (chineseName +25, englishName +12, chineseCompany -5,
englishCompany -10). -/
def FIELD_BASELINE_PT : Field → ℚ
  | Field.chineseName => 25
  | Field.englishName => 12
  | Field.chineseCompany => -5
  | Field.englishCompany => -10

/-! ## Page composition -/

/-- Class list of the print container div
(App.tsx line 1144: cn of print-container and, when printRotate,
print-rotate-mode). -/
def printContainerClasses (printRotate : Bool) : List String :=
  if printRotate then ["print-container", "print-rotate-mode"]
  else ["print-container"]

/-- Effective print scale of the card-container: the print stylesheet
(App.tsx lines 554-557) applies transform scale 0.83 to the
card-container of a print-container that does NOT carry the
print-rotate-mode class; otherwise no scale rule applies (scale 1). -/
def cardContainerPrintScale (printRotate : Bool) : ℚ :=
  if (printContainerClasses printRotate).contains "print-rotate-mode"
  then 1 else 83/100

/-- The four page corners of the crop marks. -/
inductive Corner
  | topLeft
  | topRight
  | bottomLeft
  | bottomRight
deriving DecidableEq

/-- The CSS inset declarations (top, bottom, left, right) an element may
carry; none means the declaration is absent. -/
structure CssInsets where
  top : Option ℚ
  bottom : Option ℚ
  left : Option ℚ
  right : Option ℚ
deriving DecidableEq

/-- The inline style of each crop-mark div, transcribed from App.tsx
lines 1160-1163: the top marks set top to -y, the bottom marks set
bottom to -y, the left marks set left to -x, the right marks set
right to -x (all in millimetres). -/
def cropMarkStyle (x y : ℚ) : Corner → CssInsets
  | Corner.topLeft =>
    { top := some (-y), bottom := none, left := some (-x), right := none }
  | Corner.topRight =>
    { top := some (-y), bottom := none, left := none, right := some (-x) }
  | Corner.bottomLeft =>
    { top := none, bottom := some (-y), left := some (-x), right := none }
  | Corner.bottomRight =>
    { top := none, bottom := some (-y), left := none, right := some (-x) }

/-- CSS semantics of the insets for an absolutely positioned anchor
inside a containing block of width W and height H, with x growing
rightwards and y growing downwards from the top-left corner: a left
declaration L anchors at x = L, a right declaration R at x = W - R,
a top declaration T at y = T, a bottom declaration B at y = H - B. -/
def resolveCssPos (W H : ℚ) (ins : CssInsets) : ℚ × ℚ :=
  ( match ins.left with
    | some l => l
    | none => match ins.right with
      | some r => W - r
      | none => 0
  , match ins.top with
    | some t => t
    | none => match ins.bottom with
      | some b => H - b
      | none => 0 )

/-- Anchor position of the crop mark of a given corner, for a content
block of width W and height H and calibration offset (x, y). -/
def cropMarkPos (W H x y : ℚ) (c : Corner) : ℚ × ℚ :=
  resolveCssPos W H (cropMarkStyle x y c)

/-- The logical corners of the content block. -/
def contentCorner (W H : ℚ) : Corner → ℚ × ℚ
  | Corner.topLeft => (0, 0)
  | Corner.topRight => (W, 0)
  | Corner.bottomLeft => (0, H)
  | Corner.bottomRight => (W, H)

/-- Modelled from the spec's words: the corner-appropriate sign of the
away-from-center offset direction at each corner. -/
def cornerSign : Corner → ℚ × ℚ
  | Corner.topLeft => (-1, -1)
  | Corner.topRight => (1, -1)
  | Corner.bottomLeft => (-1, 1)
  | Corner.bottomRight => (1, 1)

/-- Trailing margin of a preview page wrapper in millimetres, from the
inline style of App.tsx line 1152: calc of -420mm * (1 - previewScale)
plus 0px. -/
def previewMarginBottomMm (s : ℚ) : ℚ :=
  -420 * (1 - s) + 0

/-- One rendered face (a card-side div, App.tsx lines 1173-1217): the
inter-field gap and the four styled fields. -/
structure Face where
  gapPt : ℚ
  fieldRenders : FieldMap FieldRender
deriving DecidableEq

/-- Render one face of a card: gap is globalSpacing, and the four
fields are styled by renderFieldStyle. Both map iterations of the
card-side array use the same record and config. -/
def renderFace (cfg : Config) (card : CardData) : Face :=
  { gapPt := cfg.globalSpacing
  , fieldRenders :=
    { chineseName := renderFieldStyle cfg card Field.chineseName
    , englishName := renderFieldStyle cfg card Field.englishName
    , chineseCompany := renderFieldStyle cfg card Field.chineseCompany
    , englishCompany := renderFieldStyle cfg card Field.englishCompany } }

/-- The rendered page of one card (the preview-card-wrapper of App.tsx
lines 1146-1221): preview transform scale and compensated bottom
margin, fixed 420mm wrapper height, effective print fit scale of the
card-container, optional crop marks (the configured offset pair),
optional fold line, and the two faces. -/
structure PageRender where
  previewTransformScale : ℚ
  marginBottomMm : ℚ
  heightMm : ℚ
  fitScale : ℚ
  cropMarks : Option (ℚ × ℚ)
  foldLine : Bool
  topFace : Face
  bottomFace : Face
deriving DecidableEq

/-- Render the page of one card from the configuration alone
(App.tsx lines 1146-1221; no other render input reaches the page). -/
def renderCard (cfg : Config) (card : CardData) : PageRender :=
  { previewTransformScale := cfg.previewScale
  , marginBottomMm := previewMarginBottomMm cfg.previewScale
  , heightMm := 420
  , fitScale := cardContainerPrintScale cfg.printRotate
  , cropMarks := if cfg.showCropMarks then some cfg.cropOffset else none
  , foldLine := cfg.showFoldLine
  , topFace := renderFace cfg card
  , bottomFace := renderFace cfg card }

/-- The page sequence of the roster: App.tsx line 1145 maps renderCard
over the card list in caller order. -/
def renderPages (cfg : Config) (cards : List CardData) : List PageRender :=
  cards.map (renderCard cfg)

/-! ## Preset loading (App.tsx lines 318-339) -/

/-- A persisted preset's settings payload: fields added in newer
versions are optional (they may be absent from an old snapshot). -/
structure PresetSettings where
  fontSize : FieldMap ℚ
  offsets : FieldMap ℚ
  fontFamilies : FieldMap String
  letterSpacings : Option (FieldMap ℚ)
  enableTwoCharWidening : Option Bool
  globalSpacing : ℚ
  previewScale : Option ℚ
  showCropMarks : Option Bool
  showFoldLine : Option Bool
  cropOffset : Option (ℚ × ℚ)
deriving DecidableEq

/-- loadPreset (App.tsx lines 318-339), given the current printRotate
state (which loadPreset leaves untouched). An or-else on an object
(letterSpacings, cropOffset) falls back only when the field is absent;
the question-question-operator on the booleans likewise; the or-else on
the number previewScale also falls back when the stored value is 0,
since 0 is falsy in JavaScript. The function is total: no missing
field can fail the load. -/
def loadPresetSettings (s : PresetSettings) (printRotate : Bool) : Config :=
  { fontSize := s.fontSize
  , offsets := s.offsets
  , fontFamilies := s.fontFamilies
  , letterSpacings :=
      s.letterSpacings.getD
        { chineseName := 1/10, englishName := 1/20,
          chineseCompany := 0, englishCompany := 0 }
  , enableTwoCharWidening := s.enableTwoCharWidening.getD true
  , globalSpacing := s.globalSpacing
  , printRotate := printRotate
  , previewScale :=
      match s.previewScale with
      | some p => if p = 0 then 3/4 else p
      | none => 3/4
  , showCropMarks := s.showCropMarks.getD true
  , showFoldLine := s.showFoldLine.getD false
  , cropOffset := s.cropOffset.getD (0, 0) }

/-! ## Crop-offset calibration inputs (App.tsx lines 876-891) -/

/-- ASCII decimal digit. -/
def isDigitChar (c : Char) : Bool :=
  48 ≤ c.toNat && c.toNat ≤ 57

/-- Numeric value of a digit list read left to right. -/
def digitsToNat (ds : List Char) : ℕ :=
  ds.foldl (fun a c => 10 * a + (c.toNat - 48)) 0

/-- JavaScript parseInt on the decimal grammar (the only shape a
type-number input value takes): skip leading whitespace, read an
optional sign, then the maximal run of decimal digits; none when no
digit follows (parseInt would give NaN there). Parsing stops at the
first non-digit, so a decimal point and everything after it is
dropped. -/
def jsParseIntDec (s : List Char) : Option ℤ :=
  let t := s.dropWhile isJsWhitespace
  let sr : ℤ × List Char :=
    match t with
    | '-' :: r => (-1, r)
    | '+' :: r => (1, r)
    | r => (1, r)
  let ds := sr.2.takeWhile isDigitChar
  if ds.isEmpty then none
  else some (sr.1 * (digitsToNat ds : ℤ))

/-- The expression parseInt of the value, or-else 0, used by the two
crop-offset input handlers (App.tsx lines 881 and 888): NaN falls back
to 0. -/
def parseIntOr0 (s : List Char) : ℤ :=
  (jsParseIntDec s).getD 0

/-- An edit event of one of the two crop-offset calibration inputs,
carrying the raw input string. -/
inductive CropEvent
  | setX (s : List Char)
  | setY (s : List Char)

/-- The state update of one input event (App.tsx lines 881 and 888):
the edited component becomes parseIntOr0 of the input string, the
other component is kept. -/
def applyCropEvent : ℚ × ℚ → CropEvent → ℚ × ℚ
  | (_, y), CropEvent.setX s => ((parseIntOr0 s : ℤ), y)
  | (x, _), CropEvent.setY s => (x, (parseIntOr0 s : ℤ))

/-- The crop offset reached from the initial state (0, 0) after a
sequence of calibration input events. -/
def runCropEvents (evs : List CropEvent) : ℚ × ℚ :=
  evs.foldl applyCropEvent (0, 0)

/-! ## Font server (src/unnamed/part_000, server/index.js) -/

/-- The filename sanitizer of the multer diskStorage callback
(server lines 78-83): every character outside ASCII letters, digits,
underscore, the range u4E00-u9FA5 and the dot is replaced by an
underscore. -/
def sanitizeChar (c : Char) : Char :=
  if (97 ≤ c.toNat && c.toNat ≤ 122) || (65 ≤ c.toNat && c.toNat ≤ 90) ||
     (48 ≤ c.toNat && c.toNat ≤ 57) || c = '_' ||
     (0x4E00 ≤ c.toNat && c.toNat ≤ 0x9FA5) || c = '.'
  then c else '_'

/-- Sanitize a whole original filename (server line 80). -/
def sanitizeFileName (s : List Char) : List Char :=
  s.map sanitizeChar

/-- The head of filename split at dots (server lines 92 and 112). -/
def splitDotHead (s : List Char) : List Char :=
  s.takeWhile (fun c => c ≠ '.')

/-- The JSON body the font upload endpoint answers with. -/
structure UploadResult where
  success : Bool
  name : List Char
  fileName : List Char
deriving DecidableEq

/-- POST api/fonts with a file attached (server lines 74-84 and
105-117): multer's diskStorage writes the sanitized file into the fonts
directory unconditionally (no fileFilter is configured), and the
handler then answers success with the stored metadata. The font store
is modelled as the list of stored filenames. -/
def uploadFont (store : List (List Char)) (originalname : List Char) :
    UploadResult × List (List Char) :=
  let safe := sanitizeFileName originalname
  ( { success := true, name := splitDotHead safe, fileName := safe }
  , store ++ [safe] )

/-- Case-insensitive test of the listing regex (server line 90): the
filename ends in a dot followed by ttf, otf, woff or woff2. -/
def hasFontExtension (s : List Char) : Bool :=
  let r := (s.map Char.toLower).reverse
  r.take 4 == ".ttf".toList.reverse ||
  r.take 4 == ".otf".toList.reverse ||
  r.take 5 == ".woff".toList.reverse ||
  r.take 6 == ".woff2".toList.reverse

/-- GET api/fonts (server lines 86-100): only filenames with a font
extension are listed. -/
def listFontFiles (store : List (List Char)) : List (List Char) :=
  store.filter hasFontExtension

/-! ## Concrete sample values for evaluation -/

/-- The sample record of the spec's end-to-end scenario. -/
def sampleCard : CardData :=
  { id := "a1"
  , chineseName := "张三".toList
  , englishName := "San Zhang".toList
  , chineseCompany := "示例单位".toList
  , englishCompany := "Sample Org".toList }

/-- A second concrete record, for reordering scenarios. -/
def sampleCard2 : CardData :=
  { id := "b2"
  , chineseName := "欧阳娜娜".toList
  , englishName := "Nana Ouyang".toList
  , chineseCompany := "另一单位".toList
  , englishCompany := "Other Org".toList }

/-- The initial configuration with the portrait-rotation toggle off. -/
def cfgNoRotate : Config :=
  { initialConfig with printRotate := false }

/-- The initial configuration with a nonzero crop calibration offset. -/
def calibratedConfig : Config :=
  { initialConfig with cropOffset := (2, 3) }

/-- A preset settings payload from an older version: all optional
fields absent. -/
def legacyPresetSettings : PresetSettings :=
  { fontSize := initialConfig.fontSize
  , offsets := initialConfig.offsets
  , fontFamilies := initialConfig.fontFamilies
  , letterSpacings := none
  , enableTwoCharWidening := none
  , globalSpacing := 21
  , previewScale := none
  , showCropMarks := none
  , showFoldLine := none
  , cropOffset := none }

/-! ## Theorems -/

/-- C1 counterexample: the print stylesheet hard-codes the scale 0.83,
which is not equal to the exact ratio 297/357; the claim's exact-ratio
fit-scale fails at the concrete configuration rotateForPrint = false. -/
theorem fit_scale_not_page_ratio :
    cardContainerPrintScale false ≠ PAGE_WIDTH_MM / NATIVE_CONTENT_WIDTH_MM := by
  rw [show cardContainerPrintScale false = 83/100 from rfl]
  norm_num [PAGE_WIDTH_MM, NATIVE_CONTENT_WIDTH_MM]

/-- C1 (amended): the fit-scale applied to the face-pair content is
0.83 when rotateForPrint is false and 1 when it is true, and it depends
only on the rotateForPrint flag, never on record content. -/
theorem fit_scale_amended (cfg : Config) (card card2 : CardData) :
    (renderCard cfg card).fitScale = (renderCard cfg card2).fitScale ∧
    (cfg.printRotate = false → (renderCard cfg card).fitScale = 83/100) ∧
    (cfg.printRotate = true → (renderCard cfg card).fitScale = 1) := by
  refine ⟨rfl, fun h => ?_, fun h => ?_⟩ <;>
    · simp only [renderCard]
      rw [h]
      rfl

/-- C1 witness: at the concrete unrotated configuration the fit-scale
evaluates to 0.83. -/
theorem fit_scale_amended_witness :
    (renderCard cfgNoRotate sampleCard).fitScale = 83/100 :=
  (fit_scale_amended cfgNoRotate sampleCard sampleCard).2.1 rfl

/-- C2 counterexample: a name of two ideographs with codepoint 0x9FA6,
which lies inside the CJK Unified Ideographs block (U+4E00 to U+9FFF),
is not widened by the code: at base tracking 0 the claim predicts
tracking 1 + 2*0 but the code returns 0. -/
theorem widening_cjk_range_counterexample :
    twoCjkUnifiedPair [Char.ofNat 0x9FA6, Char.ofNat 0x9FA6] = true ∧
    chineseNameTracking true 0 [Char.ofNat 0x9FA6, Char.ofNat 0x9FA6] = 0 ∧
    ((0 : ℚ) ≠ 1 + 2 * 0) := by
  refine ⟨by decide, by decide, by norm_num⟩

/-- C2 (amended): with widening enabled, a string whose trimmed form is
exactly two characters in the range U+4E00 to U+9FA5 (the code's regex
range) gets tracking 1 + 2t; every other string keeps tracking t, the
match being on the full trimmed string; and the rendered chineseName
letter spacing is exactly this resolved tracking. -/
theorem widening_amended (t : ℚ) (s : List Char) (cfg : Config) (card : CardData) :
    (twoCharCjkMatch s = true → chineseNameTracking true t s = 1 + 2 * t) ∧
    (twoCharCjkMatch s = false → chineseNameTracking true t s = t) ∧
    (renderFieldStyle cfg card Field.chineseName).letterSpacingEm =
      chineseNameTracking cfg.enableTwoCharWidening cfg.letterSpacings.chineseName
        card.chineseName := by
  refine ⟨fun h => ?_, fun h => ?_, rfl⟩ <;> simp [chineseNameTracking, h]

/-- C2 witness: the two-ideograph name of the sample record at base
tracking 0.1 resolves to tracking 1.2. -/
theorem widening_amended_witness :
    chineseNameTracking true (1/10) ("张三".toList) = 1 + 2 * (1/10 : ℚ) :=
  (widening_amended (1/10) ("张三".toList) initialConfig sampleCard).1 (by decide)

/-- C3 counterexample: uploading a file named malware.exe is not
rejected: the server stores it in the font directory and answers
success, although its extension is outside the accepted set. -/
theorem font_upload_counterexample :
    (uploadFont [] ("malware.exe".toList)).1.success = true ∧
    (uploadFont [] ("malware.exe".toList)).2 = ["malware.exe".toList] ∧
    hasFontExtension ("malware.exe".toList) = false := by
  refine ⟨rfl, by decide, by decide⟩

/-- C3 (amended): a font upload succeeds for every extension: the
server writes the sanitized file into the store unconditionally and
reports success; only the font-listing endpoint filters the store down
to the accepted extensions. -/
theorem font_upload_amended (store : List (List Char)) (nm : List Char)
    (st : List (List Char)) :
    (uploadFont store nm).1.success = true ∧
    (uploadFont store nm).2 = store ++ [sanitizeFileName nm] ∧
    (listFontFiles st).all hasFontExtension = true := by
  refine ⟨rfl, rfl, ?_⟩
  rw [List.all_eq_true]
  intro a ha
  exact (List.mem_filter.mp ha).2

/-- C4: for every field, input and configuration, the trailing margin
equals the negation of the effective tracking returned for that field,
including when the two-character widening raises the tracking. -/
theorem margin_compensation_eq_tracking (cfg : Config) (card : CardData) (f : Field) :
    (renderFieldStyle cfg card f).marginRightEm =
      -(renderFieldStyle cfg card f).letterSpacingEm := by
  cases f <;> rfl

/-- C5: loading a preset whose settings omit the newer optional fields
never fails (loadPresetSettings is total) and fills the documented
defaults: showFoldLine false, showCropMarks true, cropOffset (0, 0). -/
theorem preset_optional_defaults (s : PresetSettings) (pr : Bool)
    (h1 : s.showFoldLine = none) (h2 : s.showCropMarks = none)
    (h3 : s.cropOffset = none) :
    (loadPresetSettings s pr).showFoldLine = false ∧
    (loadPresetSettings s pr).showCropMarks = true ∧
    (loadPresetSettings s pr).cropOffset = (0, 0) := by
  simp [loadPresetSettings, h1, h2, h3]

/-- C5 witness: loading the concrete legacy preset payload yields the
three documented defaults. -/
theorem preset_optional_defaults_witness :
    (loadPresetSettings legacyPresetSettings true).showFoldLine = false ∧
    (loadPresetSettings legacyPresetSettings true).showCropMarks = true ∧
    (loadPresetSettings legacyPresetSettings true).cropOffset = (0, 0) :=
  preset_optional_defaults legacyPresetSettings true rfl rfl rfl

/-- C6: when showCropMarks is enabled the rendered page carries the
configured offset pair, and each corner's mark anchor sits at the
content block's logical corner displaced by the common magnitude
(cropOffset.x, cropOffset.y) with corner-appropriate sign, away from
center. -/
theorem crop_mark_geometry (cfg : Config) (card : CardData) (c : Corner)
    (W H : ℚ) (h : cfg.showCropMarks = true) :
    (renderCard cfg card).cropMarks = some cfg.cropOffset ∧
    cropMarkPos W H cfg.cropOffset.1 cfg.cropOffset.2 c =
      ((contentCorner W H c).1 + (cornerSign c).1 * cfg.cropOffset.1,
       (contentCorner W H c).2 + (cornerSign c).2 * cfg.cropOffset.2) := by
  constructor
  · simp [renderCard, h]
  · cases c <;>
      simp [cropMarkPos, cropMarkStyle, resolveCssPos, contentCorner,
        cornerSign, Prod.ext_iff]

/-- C6 witness: the top-left mark of a page rendered at crop offset
(2, 3) sits at the top-left corner displaced by (-2, -3). -/
theorem crop_mark_geometry_witness :
    (renderCard calibratedConfig sampleCard).cropMarks = some calibratedConfig.cropOffset ∧
    cropMarkPos 357 140 calibratedConfig.cropOffset.1 calibratedConfig.cropOffset.2
      Corner.topLeft =
      ((contentCorner 357 140 Corner.topLeft).1 +
         (cornerSign Corner.topLeft).1 * calibratedConfig.cropOffset.1,
       (contentCorner 357 140 Corner.topLeft).2 +
         (cornerSign Corner.topLeft).2 * calibratedConfig.cropOffset.2) :=
  crop_mark_geometry calibratedConfig sampleCard Corner.topLeft 357 140 rfl

/-- C7: the trailing margin of every screen-preview page block equals
-PAGE_HEIGHT_MM * (1 - previewScale), a function of previewScale and
the page height alone; at previewScale 0.75 it is -105mm and at 1.0 it
is 0. -/
theorem preview_margin_compensation (cfg : Config) (card : CardData) :
    (renderCard cfg card).marginBottomMm =
      -PAGE_HEIGHT_MM * (1 - cfg.previewScale) ∧
    previewMarginBottomMm (3/4) = -105 ∧
    previewMarginBottomMm 1 = 0 := by
  refine ⟨?_, by norm_num [previewMarginBottomMm], by norm_num [previewMarginBottomMm]⟩
  simp [renderCard, previewMarginBottomMm, PAGE_HEIGHT_MM]

/-- C8: the vertical placement of every field equals its configured
offset plus the fixed per-field baseline constant (+25, +12, -5, -10
points). -/
theorem field_baseline_offsets (cfg : Config) (card : CardData) (f : Field) :
    (renderFieldStyle cfg card f).translateYPt =
      cfg.offsets.get f + FIELD_BASELINE_PT f := by
  cases f <;> simp [renderFieldStyle, FieldMap.get, FIELD_BASELINE_PT] <;> ring

/-- C9: the rendered page list maps each record through renderCard in
caller-supplied order, so reordering the records permutes the page
sequence correspondingly while each position's page is a pure function
of (record, config), independent of position. -/
theorem pages_pure_and_order (cfg : Config) (cards cards2 : List CardData)
    (i : ℕ) (h : List.Perm cards cards2) :
    List.Perm (renderPages cfg cards) (renderPages cfg cards2) ∧
    (renderPages cfg cards)[i]? = (cards[i]?).map (renderCard cfg) := by
  refine ⟨List.Perm.map (renderCard cfg) h, ?_⟩
  simp [renderPages]

/-- C9 witness: swapping the two sample records permutes the two
rendered pages. -/
theorem pages_pure_and_order_witness :
    List.Perm (renderPages initialConfig [sampleCard, sampleCard2])
      (renderPages initialConfig [sampleCard2, sampleCard]) :=
  (pages_pure_and_order initialConfig [sampleCard, sampleCard2]
    [sampleCard2, sampleCard] 0 (List.Perm.swap sampleCard2 sampleCard [])).1

/-- Auxiliary: the crop-offset fold keeps integer components. -/
theorem cropEvents_foldl_int (evs : List CropEvent) (p : ℚ × ℚ)
    (hp : ∃ m n : ℤ, p = ((m : ℚ), (n : ℚ))) :
    ∃ m n : ℤ, evs.foldl applyCropEvent p = ((m : ℚ), (n : ℚ)) := by
  induction evs generalizing p with
  | nil => simpa using hp
  | cons e rest ih =>
    obtain ⟨m, n, rfl⟩ := hp
    cases e with
    | setX s => exact ih _ ⟨parseIntOr0 s, n, rfl⟩
    | setY s => exact ih _ ⟨m, parseIntOr0 s, rfl⟩

/-- C10: every crop offset reachable through the calibration inputs has
integer components, and fractional entries are truncated: the entry
0.5 stores 0, the entry 2.7 parses to 2, the entry -2.7 parses to
-2. -/
theorem crop_offset_integral (evs : List CropEvent) :
    (∃ m n : ℤ, runCropEvents evs = ((m : ℚ), (n : ℚ))) ∧
    applyCropEvent (0, 0) (CropEvent.setX ("0.5".toList)) = (0, 0) ∧
    parseIntOr0 ("2.7".toList) = 2 ∧
    parseIntOr0 ("-2.7".toList) = -2 := by
  refine ⟨cropEvents_foldl_int evs (0, 0) ⟨0, 0, by norm_num⟩,
    by decide, by decide, by decide⟩

end Namecard
